import Mathlib

/-!
Verification of the kafka charm library: a shallow embedding of
`src/wand/contrib/coordinator.py`, `src/java_ssl.py` and
`src/wand/apps/kafka.py`, together with proofs about the restart-lock
protocol, the `RestartEvent` value object, the keystore/truststore
provisioning helpers and the package-installation helper.
-/

namespace KafkaCharmLib

/-! ### Python value fragment

The `RestartEvent` constructor serializes its `ctx` argument with
`json.dumps` and stores the resulting `str`.  We model the fragment of
Python values that can flow through this interface: strings and flat
string-valued dictionaries (the "opaque, serializable key-value payload"
of the spec).
-/

/-- Fragment of Python values carried as a `RestartEvent` context. -/
inductive PyVal where
  | pyStr (s : String)
  | pyDict (entries : List (String × String))
deriving DecidableEq

/-- Serialization of one dictionary entry, as `json.dumps` renders it:
`"key": "value"`. -/
def dumpEntry (e : String × String) : String :=
  "\"" ++ e.1 ++ "\": \"" ++ e.2 ++ "\""

/-- Embeds `json.dumps` on the modelled value fragment (strings without
escape-requiring characters).  A dictionary renders as
`\x7b"k1": "v1", "k2": "v2"\x7d`; a string renders quoted. -/
def jsonDumps : PyVal → String
  | .pyStr s => "\"" ++ s ++ "\""
  | .pyDict entries =>
      "\x7b" ++ String.intercalate ", " (entries.map dumpEntry) ++ "\x7d"

/-! ### Python `",".join` and `.split(",")`

`RestartEvent.snapshot` joins the service list with `","` and
`RestartEvent.restore` splits it again.  Both are modelled at the level
of character lists, exactly as CPython operates on them: `",".join([])`
is `""` and `"".split(",")` is `[""]`.
-/

/-- Embeds Python `",".join(l)`. -/
def pyJoinComma (l : List String) : String :=
  String.mk (List.intercalate [','] (l.map String.toList))

/-- Embeds Python `s.split(",")`. -/
def pySplitComma (s : String) : List String :=
  (s.toList.splitOn ',').map String.mk

/-- True when a service name contains a comma, in which case the
join/split round trip of `snapshot`/`restore` cannot preserve it. -/
def strHasComma (s : String) : Prop := ',' ∈ s.toList

instance (s : String) : Decidable (strHasComma s) := by
  unfold strHasComma; infer_instance

/-! ### RestartEvent (`src/wand/contrib/coordinator.py`)

`RestartEvent.__init__` stores `self._ctx = json.dumps(ctx)` and
`self._svc = copy.deepcopy(services)`.  The event state is therefore a
JSON string together with a list of service names.
-/

/-- State of a `RestartEvent` after `__init__` or `restore`: the stored
`_ctx` string and the stored `_svc` list. -/
structure RestartEvent where
  ctxStr : String
  svc : List String
deriving DecidableEq

/-- Embeds `RestartEvent.__init__(handle, ctx, services)`: stores
`json.dumps(ctx)` and a (deep) copy of the service list. -/
def RestartEvent.init (ctx : PyVal) (services : List String) : RestartEvent :=
  { ctxStr := jsonDumps ctx, svc := services }

/-- Embeds the `ctx` property: Python returns the stored `_ctx`, which is
the `str` produced by `json.dumps`, as a Python value. -/
def RestartEvent.ctx (e : RestartEvent) : PyVal :=
  .pyStr e.ctxStr

/-- Embeds `RestartEvent.snapshot`: `("ctx": self._ctx, "svc": ",".join(self._svc))`. -/
def RestartEvent.snapshot (e : RestartEvent) : String × String :=
  (e.ctxStr, pyJoinComma e.svc)

/-- Embeds `RestartEvent.restore`: `_ctx = snapshot["ctx"]`,
`_svc = snapshot["svc"].split(",")`. -/
def RestartEvent.restore (snap : String × String) : RestartEvent :=
  { ctxStr := snap.1, svc := pySplitComma snap.2 }

/-! ### Round-trip facts about the event state -/

/-- Python `s.split(",")` undoes `",".join(l)` for a non-empty list of
comma-free strings. -/
theorem pySplitComma_pyJoinComma (l : List String) (hne : l ≠ [])
    (hc : ∀ s ∈ l, ¬ strHasComma s) : pySplitComma (pyJoinComma l) = l := by
  unfold pySplitComma pyJoinComma
  have hx : ∀ c ∈ l.map String.toList, ',' ∉ c := by
    intro c hcm
    rcases List.mem_map.mp hcm with ⟨s, hs, rfl⟩
    exact hc s hs
  have hm : l.map String.toList ≠ [] := by
    intro h
    exact hne (List.map_eq_nil_iff.mp h)
  have hsplit :
      (String.mk (List.intercalate [','] (l.map String.toList))).toList.splitOn ','
        = l.map String.toList := by
    have : (String.mk (List.intercalate [','] (l.map String.toList))).toList
        = List.intercalate [','] (l.map String.toList) := rfl
    rw [this]
    exact List.splitOn_intercalate (l.map String.toList) ',' hx hm
  rw [hsplit, List.map_map]
  have hid : (String.mk ∘ String.toList) = id := by
    funext s
    rfl
  rw [hid, List.map_id]

/-- C10: restoring a snapshot of a `RestartEvent` preserves the stored
context string always, preserves the service list exactly when that list
is non-empty and comma-free, and turns the empty service list into
`[""]`. -/
theorem restartEvent_snapshot_restore_roundtrip (e : RestartEvent) :
    (RestartEvent.restore e.snapshot).ctxStr = e.ctxStr ∧
    (e.svc = [] → RestartEvent.restore e.snapshot = { e with svc := [""] }) ∧
    (e.svc ≠ [] → (∀ s ∈ e.svc, ¬ strHasComma s) →
      RestartEvent.restore e.snapshot = e) := by
  refine ⟨rfl, ?_, ?_⟩
  · intro h
    have hs : pySplitComma (pyJoinComma e.svc) = [""] := by
      rw [h]
      rfl
    show RestartEvent.mk e.ctxStr (pySplitComma (pyJoinComma e.svc)) = _
    rw [hs]
  · intro hne hc
    show RestartEvent.mk e.ctxStr (pySplitComma (pyJoinComma e.svc)) = e
    rw [pySplitComma_pyJoinComma e.svc hne hc]

/-- C10 witness: the round trip at the concrete events
`(ctx = "\x7b\x7d", svc = ["broker", "zk"])` and `(ctx = "\x7b\x7d", svc = [])`. -/
theorem restartEvent_snapshot_restore_roundtrip_witness :
    RestartEvent.restore (RestartEvent.snapshot ⟨"\x7b\x7d", ["broker", "zk"]⟩)
      = ⟨"\x7b\x7d", ["broker", "zk"]⟩ ∧
    RestartEvent.restore (RestartEvent.snapshot ⟨"\x7b\x7d", []⟩)
      = ⟨"\x7b\x7d", [""]⟩ :=
  ⟨(restartEvent_snapshot_restore_roundtrip ⟨"\x7b\x7d", ["broker", "zk"]⟩).2.2
      (by decide) (by decide),
   (restartEvent_snapshot_restore_roundtrip ⟨"\x7b\x7d", []⟩).2.1 rfl⟩

/-- C6 counterexample: the `ctx` accessor of an event built from the
empty dictionary returns the serialized string, not the dictionary the
caller supplied. -/
theorem restartEvent_ctx_not_identity :
    (RestartEvent.init (PyVal.pyDict []) ["broker"]).ctx ≠ PyVal.pyDict [] := by
  decide

/-- C6 amended: reading the `ctx` accessor yields the `json.dumps`
serialization of the supplied context as a Python string, never the
original dictionary itself. -/
theorem restartEvent_ctx_is_serialized (ctx : PyVal) (services : List String) :
    (RestartEvent.init ctx services).ctx = PyVal.pyStr (jsonDumps ctx) ∧
    (∀ entries, ctx = PyVal.pyDict entries →
      (RestartEvent.init ctx services).ctx ≠ ctx) := by
  refine ⟨rfl, ?_⟩
  rintro entries rfl h
  simp only [RestartEvent.init, RestartEvent.ctx] at h
  exact PyVal.noConfusion h

/-- C6 amended witness: at the empty dictionary and service list `["broker"]`. -/
theorem restartEvent_ctx_is_serialized_witness :
    (RestartEvent.init (PyVal.pyDict []) ["broker"]).ctx
      = PyVal.pyStr (jsonDumps (PyVal.pyDict [])) ∧
    (RestartEvent.init (PyVal.pyDict []) ["broker"]).ctx ≠ PyVal.pyDict [] :=
  ⟨(restartEvent_ctx_is_serialized (PyVal.pyDict []) ["broker"]).1,
   (restartEvent_ctx_is_serialized (PyVal.pyDict []) ["broker"]).2 [] rfl⟩

/-! ### The serial restart lock

`OpsCoordinator` subclasses the charmhelpers `Serial` coordinator, whose
ledger and grant logic are not part of this repository's sources.  The
ledger and the grant policy are therefore modelled from the spec (data
model of the Lock Ledger, grant policy of the Serial Lock Coordinator),
while `OpsCoordinator.release` itself (`_release_granted()` followed by
`_save_state()`) is taken from `src/wand/contrib/coordinator.py`.
-/

/-- Observable effects of the coordinator and of the restart executor:
service-manager calls, clearing a granted lock, and flushing the ledger
to durable storage. -/
inductive Eff where
  | svcResume (s : String)
  | svcReload (s : String)
  | svcRestart (s : String)
  | releaseGranted
  | saveState
deriving DecidableEq

/-- Modelled from the spec: the Lock Ledger for the single lock named
"restart" — `grants` holds the current holders of that lock and
`requests` the FIFO queue of pending requesters.  (The charmhelpers
`Serial` coordinator that maintains this state is not under `src/`.) -/
structure Ledger where
  grants : List String
  requests : List String
deriving DecidableEq

/-- Modelled from the spec: a fresh ledger holds no grants and no
pending requests. -/
def Ledger.empty : Ledger := { grants := [], requests := [] }

/-- Modelled from the spec: `acquire("restart")` is a pure read — it
reports whether the calling member currently holds the lock per the
ledger, and never mutates grant state. -/
def acquireRestart (me : String) (st : Ledger) : Bool :=
  decide (me ∈ st.grants)

/-- Modelled from the spec: a member enqueues a request for the lock;
requests await leader evaluation in FIFO order. -/
def requestRestart (me : String) (st : Ledger) : Ledger :=
  { st with requests := st.requests ++ [me] }

/-- Modelled from the spec: the leader-side grant evaluation run inside
`resume()` — if the lock is currently held, grant nothing this cycle;
otherwise grant to the earliest enqueued requester, leaving the others
pending. -/
def leaderEval (st : Ledger) : Ledger :=
  match st.grants with
  | _ :: _ => st
  | [] =>
      match st.requests with
      | [] => st
      | r :: rest => { grants := [r], requests := rest }

/-- Embeds `OpsCoordinator.release` from `src/wand/contrib/coordinator.py`:
`self._release_granted()` clears the caller's hold (if any), then
`self._save_state()` flushes the ledger; the two inner charmhelpers
methods are modelled from the spec as erasing the caller from `grants`
and as the `saveState` effect. -/
def opsRelease (me : String) (st : Ledger) : Ledger × List Eff :=
  ({ st with grants := st.grants.erase me }, [Eff.releaseGranted, Eff.saveState])

/-- Modelled from the spec: one protocol step of the peer group — some
member requests the lock, the leader evaluates grants during its
`resume()`, or some member releases. -/
def LedgerStep (st st' : Ledger) : Prop :=
  (∃ m, st' = requestRestart m st) ∨ st' = leaderEval st ∨
    (∃ m, st' = (opsRelease m st).1)

/-- Modelled from the spec: ledgers reachable from the fresh ledger by
request / leader-evaluation / release steps. -/
def LedgerReachable (st : Ledger) : Prop :=
  Relation.ReflTransGen LedgerStep Ledger.empty st

/-- The grant invariant: the "restart" lock has at most one holder. -/
def AtMostOneHolder (st : Ledger) : Prop :=
  st.grants = [] ∨ ∃ m, st.grants = [m]

/-- Every protocol step preserves the grant invariant. -/
theorem ledgerStep_atMostOneHolder {st st' : Ledger}
    (h : AtMostOneHolder st) (hs : LedgerStep st st') : AtMostOneHolder st' := by
  rcases hs with ⟨m, rfl⟩ | rfl | ⟨m, rfl⟩
  · exact h
  · unfold leaderEval
    rcases h with h0 | ⟨a, ha⟩
    · rw [h0]
      cases hr : st.requests with
      | nil => exact Or.inl h0
      | cons r rest => exact Or.inr ⟨r, rfl⟩
    · rw [ha]
      exact Or.inr ⟨a, ha⟩
  · rcases h with h0 | ⟨a, ha⟩
    · left
      simp [opsRelease, h0]
    · by_cases hm : a = m
      · subst hm
        left
        simp [opsRelease, ha]
      · right
        exact ⟨a, by simp [opsRelease, ha, List.erase_cons, hm]⟩

/-- Every reachable ledger satisfies the grant invariant. -/
theorem ledgerReachable_atMostOneHolder {st : Ledger}
    (h : LedgerReachable st) : AtMostOneHolder st := by
  induction h with
  | refl => exact Or.inl rfl
  | tail _ hs ih => exact ledgerStep_atMostOneHolder ih hs

/-- C1: over every sequence of request, leader-evaluation and release
steps, no two distinct members simultaneously observe
`acquire("restart") = true`; and the leader grants nothing in a cycle in
which the lock is held. -/
theorem restart_lock_mutual_exclusion :
    (∀ st, LedgerReachable st → ∀ a b, acquireRestart a st = true →
      acquireRestart b st = true → a = b) ∧
    (∀ st, st.grants ≠ [] → leaderEval st = st) := by
  constructor
  · intro st h a b ha hb
    have hinv := ledgerReachable_atMostOneHolder h
    have ha' : a ∈ st.grants := of_decide_eq_true ha
    have hb' : b ∈ st.grants := of_decide_eq_true hb
    rcases hinv with h0 | ⟨m, hm⟩
    · rw [h0] at ha'
      cases ha'
    · rw [hm] at ha' hb'
      have ha2 : a = m := by simpa using ha'
      have hb2 : b = m := by simpa using hb'
      rw [ha2, hb2]
  · intro st h
    rcases hgr : st.grants with _ | ⟨x, xs⟩
    · exact absurd hgr h
    · simp [leaderEval, hgr]

/-- C1 witness: from the empty ledger, members u1 and u2 request the
lock, the leader grants it to u1; in the resulting ledger u1 observes
the lock, and a further leader evaluation changes nothing. -/
theorem restart_lock_mutual_exclusion_witness :
    ("u1" : String) = "u1" ∧
    leaderEval ⟨["u1"], ["u2"]⟩ = ⟨["u1"], ["u2"]⟩ := by
  have h1 : LedgerReachable ⟨[], ["u1"]⟩ :=
    Relation.ReflTransGen.tail Relation.ReflTransGen.refl (Or.inl ⟨"u1", rfl⟩)
  have h2 : LedgerReachable ⟨[], ["u1", "u2"]⟩ :=
    Relation.ReflTransGen.tail h1 (Or.inl ⟨"u2", rfl⟩)
  have h3 : LedgerReachable ⟨["u1"], ["u2"]⟩ :=
    Relation.ReflTransGen.tail h2 (Or.inr (Or.inl rfl))
  exact ⟨restart_lock_mutual_exclusion.1 ⟨["u1"], ["u2"]⟩ h3 "u1" "u1"
      (by decide) (by decide),
    restart_lock_mutual_exclusion.2 ⟨["u1"], ["u2"]⟩ (by decide)⟩

/-- C5: releasing when the caller holds no lock leaves the ledger
unchanged, and every call to `release`, on every path, flushes the
ledger to durable storage. -/
theorem opsRelease_noop_and_flushes (me : String) (st : Ledger) :
    (acquireRestart me st = false → (opsRelease me st).1 = st) ∧
    Eff.saveState ∈ (opsRelease me st).2 := by
  constructor
  · intro h
    have hm : me ∉ st.grants := of_decide_eq_false h
    simp [opsRelease, List.erase_of_not_mem hm]
  · simp [opsRelease]

/-- C5 witness: u2 releases while u1 holds the lock — the ledger is
untouched and still flushed. -/
theorem opsRelease_noop_and_flushes_witness :
    (opsRelease "u2" ⟨["u1"], []⟩).1 = ⟨["u1"], []⟩ ∧
    Eff.saveState ∈ (opsRelease "u2" ⟨["u1"], []⟩).2 :=
  ⟨(opsRelease_noop_and_flushes "u2" ⟨["u1"], []⟩).1 (by decide),
   (opsRelease_noop_and_flushes "u2" ⟨["u1"], []⟩).2⟩

/-! ### The restart executor (`RestartEvent.restart`)

`RestartEvent.restart` resumes the coordinator, asks for the lock, and
— when granted — runs `service_resume`, `service_reload` and
`service_restart` over each service in list order, then releases.  The
three charmhelpers service functions are an external, individually
fallible capability: an oracle `ok : Eff → Bool` says which calls
succeed; a failing call raises and aborts the remaining calls.
-/

/-- The three service-manager calls made for one service, in source
order: resume (unmask/enable), reload, restart. -/
def svcCallsFor (s : String) : List Eff :=
  [Eff.svcResume s, Eff.svcReload s, Eff.svcRestart s]

/-- The calls made by the `for ev in self.svc` loop, in list order. -/
def svcCallsForAll : List String → List Eff
  | [] => []
  | s :: rest => svcCallsFor s ++ svcCallsForAll rest

/-- Runs a sequence of service-manager calls against the oracle,
returning the calls performed and the first failing call, if any
(a failure aborts everything after it, as a raised exception would). -/
def runSvcCalls (ok : Eff → Bool) : List Eff → List Eff × Option Eff
  | [] => ([], none)
  | c :: rest =>
      if ok c then
        let r := runSvcCalls ok rest
        (c :: r.1, r.2)
      else ([], some c)

/-- True on the effects that are service-manager invocations. -/
def Eff.isSvcCall : Eff → Bool
  | .svcResume _ => true
  | .svcReload _ => true
  | .svcRestart _ => true
  | _ => false

/-- Embeds `RestartEvent.restart` from `src/wand/contrib/coordinator.py`:
acquire the lock from the (freshly resumed) ledger `st`; if granted,
loop `service_resume`/`service_reload`/`service_restart` over the
services, then `coordinator.release()` and return `True`; a raised
service-manager error propagates.  If not granted, `coordinator.release()`
and return `False`.  The returned pair is the effect trace and the
Python outcome (return value or raised error). -/
def RestartEvent.restart (e : RestartEvent) (st : Ledger) (me : String)
    (ok : Eff → Bool) : List Eff × Except Eff Bool :=
  if acquireRestart me st then
    match runSvcCalls ok (svcCallsForAll e.svc) with
    | (trace, none) => (trace ++ (opsRelease me st).2, .ok true)
    | (trace, some c) => (trace, .error c)
  else
    ((opsRelease me st).2, .ok false)

/-- The service-manager oracle under which every call succeeds. -/
def allOk : Eff → Bool := fun _ => true

/-- The service-manager oracle under which every call fails. -/
def allFail : Eff → Bool := fun _ => false

/-- When every call succeeds, the executor performs exactly the listed
calls and reports no failure. -/
theorem runSvcCalls_all_ok (ok : Eff → Bool) (hok : ∀ c, ok c = true) :
    ∀ l, runSvcCalls ok l = (l, none) := by
  intro l
  induction l with
  | nil => rfl
  | cons c rest ih => simp [runSvcCalls, hok c, ih]

/-- C2: with the lock granted and no service-manager failure,
`restart()` performs, per service in list order, resume then reload then
restart, then clears the grant and persists the ledger, and returns
`True`. -/
theorem restart_granted_runs_services (e : RestartEvent) (st : Ledger)
    (me : String) (ok : Eff → Bool)
    (hg : acquireRestart me st = true) (hok : ∀ c, ok c = true) :
    e.restart st me ok
      = (svcCallsForAll e.svc ++ [Eff.releaseGranted, Eff.saveState],
         Except.ok true) := by
  unfold RestartEvent.restart
  rw [hg]
  rw [runSvcCalls_all_ok ok hok]
  rfl

/-- C2 witness: a granted restart of `["broker"]` with a fully working
service manager. -/
theorem restart_granted_runs_services_witness :
    RestartEvent.restart ⟨"c", ["broker"]⟩ ⟨["u1"], []⟩ "u1" allOk
      = ([Eff.svcResume "broker", Eff.svcReload "broker",
          Eff.svcRestart "broker", Eff.releaseGranted, Eff.saveState],
         Except.ok true) :=
  restart_granted_runs_services ⟨"c", ["broker"]⟩ ⟨["u1"], []⟩ "u1" allOk
    (by decide) (fun _ => rfl)

/-- C3: without the lock, `restart()` returns `False`, its trace holds
no service-manager invocation, and it still releases, persisting the
ledger. -/
theorem restart_not_granted_no_side_effects (e : RestartEvent)
    (st : Ledger) (me : String) (ok : Eff → Bool)
    (hg : acquireRestart me st = false) :
    e.restart st me ok = ([Eff.releaseGranted, Eff.saveState], Except.ok false) ∧
    (e.restart st me ok).1.all (fun c => ¬ c.isSvcCall) ∧
    Eff.saveState ∈ (e.restart st me ok).1 := by
  have h1 : e.restart st me ok
      = ([Eff.releaseGranted, Eff.saveState], Except.ok false) := by
    unfold RestartEvent.restart
    rw [hg]
    rfl
  refine ⟨h1, ?_, ?_⟩
  · rw [h1]
    decide
  · rw [h1]
    decide

/-- C3 witness: a non-granted restart of `["broker"]`. -/
theorem restart_not_granted_no_side_effects_witness :
    RestartEvent.restart ⟨"c", ["broker"]⟩ ⟨["u1"], []⟩ "u2" allOk
      = ([Eff.releaseGranted, Eff.saveState], Except.ok false) :=
  (restart_not_granted_no_side_effects ⟨"c", ["broker"]⟩ ⟨["u1"], []⟩
    "u2" allOk (by decide)).1

/-- C4: an execution in which a service-manager step fails while the
lock is granted yields an outcome different from the outcome of any
non-granted execution — callers can tell an execution failure apart
from "not granted". -/
theorem restart_failure_distinct_from_not_granted (e : RestartEvent)
    (st : Ledger) (me : String) (ok : Eff → Bool) (e' : RestartEvent)
    (st' : Ledger) (me' : String) (ok' : Eff → Bool)
    (hg : acquireRestart me st = true)
    (hng : acquireRestart me' st' = false)
    (hfail : (runSvcCalls ok (svcCallsForAll e.svc)).2.isSome = true) :
    (e.restart st me ok).2 ≠ (e'.restart st' me' ok').2 := by
  intro h
  unfold RestartEvent.restart at h
  rw [hg, hng] at h
  rcases hr : runSvcCalls ok (svcCallsForAll e.svc) with ⟨tr, oe⟩
  rw [hr] at hfail h
  cases oe with
  | none => simp at hfail
  | some c => simp at h

/-- C4 witness: a granted restart whose first service call fails versus
a non-granted restart. -/
theorem restart_failure_distinct_from_not_granted_witness :
    (RestartEvent.restart ⟨"c", ["broker"]⟩ ⟨["u1"], []⟩ "u1" allFail).2
      ≠ (RestartEvent.restart ⟨"c", ["broker"]⟩ ⟨["u1"], []⟩ "u2" allOk).2 :=
  restart_failure_distinct_from_not_granted ⟨"c", ["broker"]⟩ ⟨["u1"], []⟩
    "u1" allFail ⟨"c", ["broker"]⟩ ⟨["u1"], []⟩ "u2" allOk
    (by decide) (by decide) (by decide)

/-! ### Keystore/truststore provisioning (`src/java_ssl.py`)

Python exceptions observable at this interface, and a character-level
embedding of the string operations of `_break_crt_chain`:
`crts.split("-----END CERTIFICATE-----\n")` and
`i.startswith("-----BEGIN CERTIFICATE-----\n")`.
-/

deriving instance DecidableEq for Except

/-- Python errors raised by the modelled functions. -/
inductive PyErr where
  | nameError (n : String)
  | indexError
  | exception (msg : String)
deriving DecidableEq

/-- The certificate end marker used by `_break_crt_chain`. -/
def endMarker : String := "-----END CERTIFICATE-----\n"

/-- The certificate begin marker used by `_break_crt_chain`. -/
def beginMarker : String := "-----BEGIN CERTIFICATE-----\n"

/-- Fuel-driven splitter on the end marker; with fuel at least the
length of the input (every step consumes at least one character) it
computes exactly CPython's `s.split(endMarker)`. -/
def splitOnEndFuel : Nat → List Char → List (List Char)
  | 0, l => [l]
  | _ + 1, [] => [[]]
  | fuel + 1, c :: rest =>
      if endMarker.toList.isPrefixOf (c :: rest) then
        [] :: splitOnEndFuel fuel (List.drop endMarker.toList.length (c :: rest))
      else
        match splitOnEndFuel fuel rest with
        | [] => [[c]]
        | r :: rs => (c :: r) :: rs

/-- Embeds Python `s.split("-----END CERTIFICATE-----\n")`. -/
def pySplitOnEndMarker (s : String) : List String :=
  (splitOnEndFuel s.toList.length s.toList).map String.mk

/-- Embeds Python `s.startswith(pre)`. -/
def pyStartsWith (s pre : String) : Bool :=
  pre.toList.isPrefixOf s.toList

/-- Embeds `_break_crt_chain(buffer)` from `src/java_ssl.py`.  The body
reads the free variable `crts`, not the `buffer` parameter, so the
lookup of the name `crts` in the module globals at call time is an
explicit argument: when no global `crts` exists the call raises
`NameError`; when it resolves to a string the function splits it on the
end marker, keeps the pieces starting with the begin marker, and
re-terminates each with the end marker. -/
def break_crt_chain (buffer : String) (globalCrts : Option String) :
    Except PyErr (List String) :=
  match globalCrts with
  | none => .error (.nameError "crts")
  | some crts =>
      .ok (((pySplitOnEndMarker crts).filter
          (fun i => pyStartsWith i beginMarker)).map (fun i => i ++ endMarker))

/-- The module `src/java_ssl.py` binds no module-level name `crts`, so
calls from `saveCrtChainToFile` or `CreateKeystoreAndTrustore` resolve
`crts` to nothing. -/
def javaSslGlobalCrts : Option String := none

/-- What `CreateKeystoreAndTrustore` hands to the store builders:
`cert_chain[0]` to `PKCS12CreateKeystore` and `cert_chain[1:]` to
`CreateTruststoreWithCertificates`. -/
structure StoreResult where
  keystoreLeaf : String
  trustChain : List String
deriving DecidableEq

/-- Embeds `CreateKeystoreAndTrustore` from `src/java_ssl.py`.  The
existence checks `RegisterIfKeystoreExists` / `RegisterIfTruststoreExists`
are the two booleans; the second component lists the store paths the
call writes.  When both stores exist and `regenerate_stores` is false
the function returns `None` and writes nothing; otherwise it breaks the
chain (propagating any raised error) and builds both stores. -/
def CreateKeystoreAndTrustore (keystorePath truststorePath : String)
    (keystoreExists truststoreExists regenerateStores : Bool)
    (sslCertChain : String) (globalCrts : Option String) :
    Except PyErr (Option StoreResult) × List String :=
  if keystoreExists && truststoreExists && !regenerateStores then
    (.ok none, [])
  else
    match break_crt_chain sslCertChain globalCrts with
    | .error e => (.error e, [])
    | .ok [] => (.error .indexError, [])
    | .ok (c0 :: rest) =>
        (.ok (some ⟨c0, rest⟩), [keystorePath, truststorePath])

/-- The spec's three-certificate chain scenario. -/
def specCertChain : String :=
  beginMarker ++ "A\n" ++ endMarker ++ beginMarker ++ "B\n" ++ endMarker ++
  beginMarker ++ "C\n" ++ endMarker

set_option maxRecDepth 20000 in
/-- C7 (code bug): on the spec's three-certificate chain the module's
call raises `NameError` because `_break_crt_chain` reads the undefined
global `crts` instead of its `buffer` parameter; had `crts` denoted the
buffer (the evident intent), the split would return exactly the three
re-terminated entries, and store creation would consume entry 0 as the
keystore leaf and entries 1.. as the trust chain. -/
theorem break_crt_chain_name_error :
    break_crt_chain specCertChain javaSslGlobalCrts
      = .error (.nameError "crts") ∧
    break_crt_chain specCertChain (some specCertChain)
      = .ok [beginMarker ++ "A\n" ++ endMarker,
             beginMarker ++ "B\n" ++ endMarker,
             beginMarker ++ "C\n" ++ endMarker] ∧
    CreateKeystoreAndTrustore "ks" "ts" false false false specCertChain
        (some specCertChain)
      = (.ok (some ⟨beginMarker ++ "A\n" ++ endMarker,
            [beginMarker ++ "B\n" ++ endMarker,
             beginMarker ++ "C\n" ++ endMarker]⟩), ["ks", "ts"]) ∧
    CreateKeystoreAndTrustore "ks" "ts" false false false specCertChain
        javaSslGlobalCrts
      = (.error (.nameError "crts"), []) := by
  refine ⟨rfl, by decide, by decide, rfl⟩

/-- C8 counterexample: a second creation call with both stores existing
and `regenerate_stores = False` returns `None` and writes nothing — no
refusal error is raised. -/
theorem createStores_existing_returns_none :
    CreateKeystoreAndTrustore "ks" "ts" true true false specCertChain
        javaSslGlobalCrts
      = (.ok none, []) := rfl

/-- C8 amended: when the store files already exist and regeneration is
not forced, `CreateKeystoreAndTrustore` writes no files and refuses
silently, returning `None` rather than raising. -/
theorem createStores_existing_noop (keystorePath truststorePath : String)
    (chain : String) (globalCrts : Option String) :
    CreateKeystoreAndTrustore keystorePath truststorePath true true false
        chain globalCrts
      = (.ok none, []) := rfl

/-! ### Package installation (`src/wand/apps/kafka.py`) -/

/-- Repository and package effects of `install_packages`. -/
inductive PkgEff where
  | fetchKey (url : String)
  | addSource (source : String)
  | aptUpdate
  | aptInstall (packages : List String)
deriving DecidableEq

/-- The confluent archive key URL for a version. -/
def confluentKeyUrl (version : String) : String :=
  "https://packages.confluent.io/deb/" ++ version ++ "/archive.key"

/-- The confluent apt source line for a version. -/
def confluentAptSource (version : String) : String :=
  "deb [arch=amd64] https://packages.confluent.io/deb/" ++ version
    ++ " stable main"

/-- Embeds `KafkaJavaCharmBase.install_packages`: `distro` is the
lowercased "distro" config option and `version` the "version" option.
For "confluent" it fetches the key, adds the source, updates and
installs; for "apache" it raises `Exception("Not Implemented Yet")`;
for every other selector both branches are skipped and it falls through
directly to `apt_install(packages)`. -/
def install_packages (distro version : String) (packages : List String) :
    Except PyErr (List PkgEff) :=
  if distro = "confluent" then
    .ok [.fetchKey (confluentKeyUrl version),
         .addSource (confluentAptSource version),
         .aptUpdate, .aptInstall packages]
  else if distro = "apache" then
    .error (.exception "Not Implemented Yet")
  else
    .ok [.aptInstall packages]

/-- C9 counterexample: the unsupported selector "centos" does not fail
fast — the call proceeds straight to package installation. -/
theorem install_packages_unknown_distro_installs :
    install_packages "centos" "6.1" ["kafka"]
      = .ok [.aptInstall ["kafka"]] := rfl

/-- C9 amended: only the selector "apache" fails fast with the
"Not Implemented Yet" error; every selector other than "confluent" and
"apache" silently skips repository setup and proceeds directly to
`apt_install(packages)`. -/
theorem install_packages_fail_fast_only_apache (distro version : String)
    (packages : List String) :
    install_packages "apache" version packages
      = .error (.exception "Not Implemented Yet") ∧
    (distro ≠ "confluent" → distro ≠ "apache" →
      install_packages distro version packages
        = .ok [.aptInstall packages]) := by
  constructor
  · rfl
  · intro h1 h2
    simp [install_packages, h1, h2]

/-- C9 amended witness: at the selectors "apache" and "centos". -/
theorem install_packages_fail_fast_only_apache_witness :
    install_packages "apache" "6.1" ["kafka"]
      = .error (.exception "Not Implemented Yet") ∧
    install_packages "centos" "6.1" ["kafka"]
      = .ok [.aptInstall ["kafka"]] :=
  ⟨(install_packages_fail_fast_only_apache "centos" "6.1" ["kafka"]).1,
   (install_packages_fail_fast_only_apache "centos" "6.1" ["kafka"]).2
      (by decide) (by decide)⟩

end KafkaCharmLib
